import Mathlib

/-!
# Verification of the RadarTechMetanoMVP03 pipeline

A shallow embedding of the data-processing pipeline of
`src/RadarTechMetanoMVP03.py`: column normalization, required-column
validation, numeric coercion, heuristic score derivation, and the filter
engine.  DataFrames are modelled as a list of column names together with a
list of rows, each row an association list from column name to cell value.
A pandas cell is a string, a number (modelled as an exact rational `Q`),
or NaN.  String and numeric primitives are implemented structurally so
that every definition evaluates by kernel reduction on concrete inputs.
-/

set_option maxRecDepth 4000

namespace RadarTech

/-- A rational number kept in lowest terms with positive denominator: the
model of the numeric value of a (finite) Python float.  The tabular data
handled here only ever produces small decimal fractions, which floats
represent faithfully for the properties at stake. -/
structure Q where
  num : Int
  den : Nat
deriving DecidableEq, Repr

/-- Build a `Q` in lowest terms from a numerator and a positive
denominator (a zero denominator never arises; it falls back to 0). -/
def mkQ (n : Int) (d : Nat) : Q :=
  if d = 0 then ⟨0, 1⟩
  else
    let g := Int.gcd n d
    if g = 0 then ⟨0, 1⟩ else ⟨n / g, d / g⟩

def Q.ofInt (n : Int) : Q := ⟨n, 1⟩

instance (n : Nat) : OfNat Q n := ⟨⟨(n : Int), 1⟩⟩

def Q.neg (a : Q) : Q := ⟨-a.num, a.den⟩

/-- Scale by a power of ten (the exponent part of scientific notation). -/
def Q.scalePow10 (a : Q) : Int → Q
  | .ofNat k => mkQ (a.num * (10 : Int) ^ k) a.den
  | .negSucc k => mkQ a.num (a.den * 10 ^ (k + 1))

/-- Numeric order on cell numbers, by cross multiplication. -/
def Q.le (a b : Q) : Prop := a.num * (b.den : Int) ≤ b.num * (a.den : Int)

instance (a b : Q) : Decidable (Q.le a b) := Int.decLe _ _

/-- A pandas cell value: a string, a (finite) number, or NaN/missing. -/
inductive CellValue where
  | str (s : String)
  | num (q : Q)
  | nan
deriving DecidableEq, Repr

/-- A DataFrame row: association list from column name to cell value.
Rows of a well-formed frame carry one entry per column, in column order. -/
abbrev Row := List (String × CellValue)

/-- A pandas DataFrame: column labels plus rows. -/
structure Table where
  cols : List String
  rows : List Row
deriving DecidableEq, Repr

/-- `listPrefix n h`: the char list `n` is a prefix of `h`. -/
def listPrefix : List Char → List Char → Bool
  | [], _ => true
  | _ :: _, [] => false
  | a :: as, b :: bs => a == b && listPrefix as bs

/-- `subList n h`: the char list `n` occurs contiguously inside `h`. -/
def subList (n : List Char) : List Char → Bool
  | [] => n.isEmpty
  | c :: rest => listPrefix n (c :: rest) || subList n rest

/-- Python's `needle in hay` on strings: substring containment. -/
def pyIn (needle hay : String) : Bool :=
  subList needle.toList hay.toList

/-- Python's `str.lower()` (character-wise; the data at stake is ASCII
or already lower-case where it matters). -/
def pyLower (s : String) : String :=
  ⟨s.data.map Char.toLower⟩

/-- Python's `str.strip()`: whitespace removed from both ends. -/
def pyStrip (s : String) : String :=
  ⟨((s.data.dropWhile Char.isWhitespace).reverse.dropWhile Char.isWhitespace).reverse⟩

/-- Fuel-measured scan of Python's `str.replace`: replace non-overlapping
occurrences of `pat` left to right (the fuel is the input length, which
bounds the number of scan steps). -/
def replaceFrom (pat rep : List Char) : Nat → List Char → List Char
  | 0, l => l
  | _ + 1, [] => []
  | fuel + 1, c :: rest =>
    if listPrefix pat (c :: rest) && !pat.isEmpty then
      rep ++ replaceFrom pat rep fuel ((c :: rest).drop pat.length)
    else
      c :: replaceFrom pat rep fuel rest

/-- Python's `s.replace(pat, rep)`: all non-overlapping occurrences,
scanned left to right. -/
def pyReplace (s pat rep : String) : String :=
  ⟨replaceFrom pat.data rep.data s.data.length s.data⟩

/-- Python's `str(x)` on a cell value.  `str(nan)` is `"nan"`; integral
floats render with a trailing `.0` as in Python; rendering of non-integral
numbers is schematic (no claim depends on it). -/
def pyStr : CellValue → String
  | .str s => s
  | .num q =>
    if q.den = 1 then toString q.num ++ ".0"
    else toString q.num ++ "/" ++ toString q.den
  | .nan => "nan"

/-- pandas `df.empty`: true when either axis has length 0. -/
def tableEmpty (df : Table) : Bool :=
  df.rows.isEmpty || df.cols.isEmpty

/-- Look a column up in a row (pandas `row[c]` / `row.get(c, dflt)`):
first entry with the given key, else the default. -/
def getCell (r : Row) (c : String) (dflt : CellValue) : CellValue :=
  match r.find? (fun p => p.1 == c) with
  | some p => p.2
  | none => dflt

/-- Column assignment on one row: if the key is present, overwrite its
value in place; otherwise append the new pair at the end (pandas
`df[c] = ...` keeps an existing column's position, else appends). -/
def setRowCell (r : Row) (c : String) (v : CellValue) : Row :=
  if r.any (fun p => p.1 == c) then
    r.map (fun p => if p.1 == c then (c, v) else p)
  else
    r ++ [(c, v)]

/-- pandas column assignment `df[c] = df.apply(f, axis=1)`-style: set
column `c` of every row to `f` of that row; the column label is appended
when new. -/
def setCol (df : Table) (c : String) (f : Row → CellValue) : Table :=
  { cols := if df.cols.contains c then df.cols else df.cols ++ [c],
    rows := df.rows.map (fun r => setRowCell r c (f r)) }

/-! ## Numeric parsing (`float(...)` and `pd.to_numeric(..., errors="coerce")`) -/

/-- Value of a list of decimal digit characters. -/
def natOfDigits (l : List Char) : Nat :=
  l.foldl (fun a c => a * 10 + (c.toNat - 48)) 0

/-- Split a char list at the first `e`/`E` (exponent marker). -/
def splitAtExp : List Char → List Char × Option (List Char)
  | [] => ([], none)
  | c :: rest =>
    if c = 'e' ∨ c = 'E' then ([], some rest)
    else
      let (m, e) := splitAtExp rest
      (c :: m, e)

/-- Strip an optional leading sign; returns (isNegative, rest). -/
def parseSign : List Char → Bool × List Char
  | '+' :: rest => (false, rest)
  | '-' :: rest => (true, rest)
  | l => (false, l)

/-- Parse `[sign] digits [. digits]` (at least one digit) as a rational:
`d.f` with `k` fraction digits is `(d * 10^k + f) / 10^k`. -/
def parseMantissa (l : List Char) : Option Q :=
  let sr := parseSign l
  let dsRest := sr.2.span Char.isDigit
  match dsRest.2 with
  | [] =>
    if dsRest.1.isEmpty then none
    else
      let v := Q.ofInt (natOfDigits dsRest.1 : Int)
      some (if sr.1 then v.neg else v)
  | '.' :: frac =>
    if frac.all Char.isDigit && !(dsRest.1.isEmpty && frac.isEmpty) then
      let v := mkQ ((natOfDigits dsRest.1 : Int) * (10 : Int) ^ frac.length
        + (natOfDigits frac : Int)) (10 ^ frac.length)
      some (if sr.1 then v.neg else v)
    else none
  | _ => none

/-- Parse an exponent part `[sign] digits` as an integer. -/
def parseExpPart (l : List Char) : Option Int :=
  let sr := parseSign l
  if !sr.2.isEmpty && sr.2.all Char.isDigit then
    some ((if sr.1 then -1 else 1) * (natOfDigits sr.2 : Int))
  else none

/-- A textual decimal number as Python's `float(...)` accepts it:
optional surrounding whitespace, optional sign, digits with an optional
fractional part, optional exponent.  Returns `none` on anything else
(Python raises `ValueError` there; special spellings such as `inf`/`nan`
are out of scope for the tabular data handled here). -/
def parsePyFloat (s : String) : Option Q :=
  let me := splitAtExp (pyStrip s).data
  match parseMantissa me.1, me.2 with
  | some q, none => some q
  | some q, some el =>
    match parseExpPart el with
    | some k => some (q.scalePow10 k)
    | none => none
  | none, _ => none

/-- `pd.to_numeric(x, errors="coerce")` on one cell: numbers pass
through, NaN stays NaN, strings are parsed as plain decimal numbers
(surrounding whitespace tolerated, comma NOT accepted as decimal
separator), anything unparsable coerces to NaN. -/
def pdToNumeric : CellValue → CellValue
  | .num q => .num q
  | .nan => .nan
  | .str s =>
    match parsePyFloat s with
    | some q => .num q
    | none => .nan

/-- `as_num` (source lines 96-98):
`float(str(x).replace(",", ".").replace(" ", ""))` guarded by
`try/except` returning NaN.  Commas become decimal points and all spaces
are removed before parsing.  (Note: defined in the source but never
applied; the helper columns use `pd.to_numeric` instead.) -/
def as_num (x : CellValue) : CellValue :=
  match parsePyFloat (pyReplace (pyReplace (pyStr x) "," ".") " " "") with
  | some q => .num q
  | none => .nan

/-! ## Column normalization (source lines 37-46) -/

/-- Header canonicalization, one column label (line 38):
`str(c).strip().replace("  "," ").replace(" ","_").lower()`. -/
def canonName (c : String) : String :=
  pyLower (pyReplace (pyReplace (pyStrip c) "  " " ") " " "_")

/-- The alias map applied by `df.rename(columns=alias_map)` (lines 40-46). -/
def aliasResolve (c : String) : String :=
  if c = "limite_deteccion" then "limite_deteccion_valor"
  else if c = "lod" then "limite_deteccion_valor"
  else if c = "plataforma_escala" then "escala"
  else if c = "plataforma" then "escala"
  else c

/-- `normalize_cols` (lines 37-46).  The Python function first assigns
`df.columns = [...]`, MUTATING the caller's frame in place, and then
returns `df.rename(columns=alias_map)`, a fresh copy with the aliases
resolved.  The state effect is made explicit by returning a pair:
first component the returned frame, second component the caller's frame
as it stands after the call. -/
def normalize_cols (df : Table) : Table × Table :=
  let mutated : Table := { df with cols := df.cols.map canonName }
  ({ mutated with cols := mutated.cols.map aliasResolve }, mutated)

/-! ## Required-column validation (source lines 9-17 and 76-93) -/

def REQUIRED_CATALOG_COLS : List String :=
  ["proveedor", "producto_modelo", "familia", "tipo", "principio", "escala",
   "continuo", "trl", "trlc", "segmento_negocio", "tipo_emision", "eje_monitoreo",
   "taxonomia", "limite_deteccion_valor", "limite_deteccion_unidad",
   "rango_deteccion_ppb_ppm", "exactitud_incertidumbre", "cobertura_espacial_temporal",
   "costo_capex_opex", "casos_uso", "condiciones_climaticas", "condiciones_operativas"]

def REQUIRED_ADOP_COLS : List String :=
  ["empresa", "region", "tecnologias_reportadas", "segmento_negocio", "tipo_emision", "fecha"]

def REQUIRED_CONT_COLS : List String :=
  ["proveedor", "producto_modelo", "familia", "region_principal", "contacto_tipo",
   "contacto_email", "sitio_web"]

/-- `req_check(df, cols, title)` (lines 76-83): empty frame fails with a
"not loaded" message; otherwise fail listing the missing required columns,
or succeed. -/
def req_check (df : Table) (cols : List String) (title : String) : Bool × String :=
  if tableEmpty df then
    (false, "⚠️ No se cargó **" ++ title ++ "**.")
  else
    let miss := cols.filter (fun c => !(df.cols.contains c))
    if miss.isEmpty then
      (true, "✅ " ++ title ++ ": columnas mínimas OK.")
    else
      (false, "⚠️ Faltan columnas en **" ++ title ++ "**: " ++ String.intercalate ", " miss)

/-- Line 85: `req_check(df_cat, [*REQUIRED_CATALOG_COLS], "Catálogo") if not
df_cat.empty else (False, "⚠️ No se cargó **Catálogo**.")`. -/
def catCheck (df : Table) : Bool × String :=
  if !tableEmpty df then req_check df REQUIRED_CATALOG_COLS "Catálogo"
  else (false, "⚠️ No se cargó **Catálogo**.")

/-- Line 86, the same guard for the adoption frame. -/
def adpCheck (df : Table) : Bool × String :=
  if !tableEmpty df then req_check df REQUIRED_ADOP_COLS "Adopción"
  else (false, "⚠️ No se cargó **Adopción**.")

/-- Line 87, the same guard for the contacts frame. -/
def conCheck (df : Table) : Bool × String :=
  if !tableEmpty df then req_check df REQUIRED_CONT_COLS "Contactos"
  else (false, "⚠️ No se cargó **Contactos**.")

/-! ## Numeric helper columns (source lines 100-101) -/

/-- Lines 100-101: `df_cat["trl_num"] = pd.to_numeric(df_cat.get("trl",
np.nan), errors="coerce")` and likewise `lod_num` from
`limite_deteccion_valor`.  `df.get(col, nan)` yields NaN per row when the
column is absent. -/
def addNumericCols (df : Table) : Table :=
  let df1 := setCol df "trl_num" (fun r => pdToNumeric (getCell r "trl" .nan))
  setCol df1 "lod_num" (fun r => pdToNumeric (getCell r "limite_deteccion_valor" .nan))

/-! ## Heuristic score derivation (source lines 104-139) -/

/-- `map_exactitud` (lines 105-110): tiered keyword match on the
lower-cased accuracy text. -/
def map_exactitud (x : CellValue) : CellValue :=
  let s := pyLower (pyStr x)
  if ["ppb", "±0.0", "muy alta", "laboratorio"].any (fun k => pyIn k s) then .num 90
  else if ["±", "alta"].any (fun k => pyIn k s) then .num 75
  else if ["media", "screening"].any (fun k => pyIn k s) then .num 60
  else .nan

/-- `map_cobertura` (lines 114-119). -/
def map_cobertura (x : CellValue) : CellValue :=
  let s := pyLower (pyStr x)
  if ["regional", "satélite", "constelación"].any (fun k => pyIn k s) then .num 90
  else if ["área", "aéreo", "uav", "bloque"].any (fun k => pyIn k s) then .num 75
  else if ["on-site", "punto", "planta"].any (fun k => pyIn k s) then .num 60
  else .nan

/-- `map_costo` (lines 123-128). -/
def map_costo (x : CellValue) : CellValue :=
  let s := pyLower (pyStr x)
  if ["bajo", "low", "económico"].any (fun k => pyIn k s) then .num 90
  else if ["medio", "moderado"].any (fun k => pyIn k s) then .num 70
  else if ["alto", "suscripción", "por vuelo", "capex"].any (fun k => pyIn k s) then .num 50
  else .nan

/-- The robustness score before the final clamp (lines 133-137):
base 60, +15 on a climate keyword, -10 on an operating keyword.
`row.get(col, "")` defaults a missing field to the empty string. -/
def robustezRawScore (row : Row) : Int :=
  let clima := pyLower (pyStr (getCell row "condiciones_climaticas" (.str "")))
  let op := pyLower (pyStr (getCell row "condiciones_operativas" (.str "")))
  let base : Int := 60
  let withClima :=
    if ["amplio", "rango", "outdoor", "hostil"].any (fun k => pyIn k clima)
    then base + 15 else base
  if ["línea de vista", "permiso", "espacio aéreo", "clasificada"].any (fun k => pyIn k op)
  then withClima - 10 else withClima

/-- `map_robustez` (lines 132-138): the raw score clamped to [30, 95]
by `max(30, min(95, score))`. -/
def map_robustez (row : Row) : Int :=
  max 30 (min 95 (robustezRawScore row))

/-- One conditional derivation step, the shape of each
`if "<col>_score" not in df_cat.columns:` block: derive column `c` by
`f` only when it is not already present (pre-supplied columns are never
overwritten). -/
def deriveStep (c : String) (f : Row → CellValue) (df : Table) : Table :=
  if df.cols.contains c then df else setCol df c f

/-- The score-derivation stage (lines 104-139): the four conditional
blocks run in source order.  The accuracy, coverage and cost scores map a
single source column (`df.get(col, "")`: the catalog is validated before
this stage, so the column is present; a missing key in a row reads as the
empty string); robustness is an `apply` over whole rows. -/
def deriveScores (df : Table) : Table :=
  deriveStep "robustez_score" (fun r => .num (Q.ofInt (map_robustez r)))
    (deriveStep "costo_score"
      (fun r => map_costo (getCell r "costo_capex_opex" (.str "")))
      (deriveStep "cobertura_score"
        (fun r => map_cobertura (getCell r "cobertura_espacial_temporal" (.str "")))
        (deriveStep "exactitud_score"
          (fun r => map_exactitud (getCell r "exactitud_incertidumbre" (.str ""))) df)))

/-- The invariant the spec asserts of a score cell: absent, or a number
within [0, 100]. -/
def scoreInRangeB : CellValue → Bool
  | .nan => true
  | .num q => decide (Q.le 0 q) && decide (Q.le q 100)
  | .str _ => false

/-- The accuracy tiers as the spec words them, with the code's (Spanish)
keyword lists: ordered tiers of keyword sets with their scores; the first
tier with a keyword occurring in the lower-cased text wins, otherwise the
score is absent. -/
def accuracyTiers : List (List String × Q) :=
  [(["ppb", "±0.0", "muy alta", "laboratorio"], 90),
   (["±", "alta"], 75),
   (["media", "screening"], 60)]

/-- The accuracy-score rule restated from the spec's tier description,
to be compared with the source-translated `map_exactitud`. -/
def accuracyScoreSpec (x : CellValue) : CellValue :=
  let s := pyLower (pyStr x)
  match accuracyTiers.find? (fun t => t.1.any (fun k => pyIn k s)) with
  | some t => .num t.2
  | none => .nan

/-! ## Filter engine (source lines 144-162) -/

/-- The widget state read by `apply_filters`: the four multiselects,
the TRL bounds (integer inputs ranging over 0..9), and the free-text
query. -/
structure Selection where
  seg_sel : List CellValue
  tipo_sel : List CellValue
  eje_sel : List CellValue
  tax_sel : List CellValue
  trl_min : Int
  trl_max : Int
  query : String
deriving Repr

/-- `df["trl_num"].fillna(0)` on one cell: NaN becomes 0.  The `trl_num`
column only ever holds numbers or NaN (it is built by `pd.to_numeric`). -/
def fillna0 : CellValue → Q
  | .num q => q
  | _ => 0

/-- The per-row free-text test of line 159:
`query.lower() in " ".join(map(str, r.values)).lower()`; `r.values`
enumerates the row's cells in column order. -/
def rowMatchesQuery (df : Table) (q : String) (r : Row) : Bool :=
  pyIn (pyLower q)
    (pyLower (String.intercalate " " ((df.cols.map (fun c => getCell r c .nan)).map pyStr)))

/-- The conjunctive row predicate accumulated into the mask `m`
(lines 153-159).  Each `if sel:` guard skips the clause when the widget
state is empty/falsy; the TRL clause applies only when the frame has a
`trl_num` column; `between` is inclusive on both ends. -/
def rowKept (df : Table) (sel : Selection) (r : Row) : Bool :=
  (if sel.seg_sel.isEmpty then true
   else sel.seg_sel.contains (getCell r "segmento_negocio" .nan)) &&
  (if sel.tipo_sel.isEmpty then true
   else sel.tipo_sel.contains (getCell r "tipo_emision" .nan)) &&
  (if sel.eje_sel.isEmpty then true
   else sel.eje_sel.contains (getCell r "eje_monitoreo" .nan)) &&
  (if sel.tax_sel.isEmpty then true
   else sel.tax_sel.contains (getCell r "taxonomia" .nan)) &&
  (if df.cols.contains "trl_num" then
     decide (Q.le (Q.ofInt sel.trl_min) (fillna0 (getCell r "trl_num" .nan)))
       && decide (Q.le (fillna0 (getCell r "trl_num" .nan)) (Q.ofInt sel.trl_max))
   else true) &&
  (if sel.query.isEmpty then true else rowMatchesQuery df sel.query r)

/-- `apply_filters` (lines 152-160): `df[m]` keeps exactly the rows whose
mask entry is true, preserving row order and all columns. -/
def apply_filters (df : Table) (sel : Selection) : Table :=
  { cols := df.cols, rows := df.rows.filter (rowKept df sel) }

/-- The widget state of the identity case: all four multiselects empty,
TRL range [0, 9] (the widgets' defaults), empty query. -/
def identitySelection : Selection :=
  { seg_sel := [], tipo_sel := [], eje_sel := [], tax_sel := [],
    trl_min := 0, trl_max := 9, query := "" }

/-! ## Top-level script flow (source lines 85-93, 100-162, 305-309) -/

/-- What one run of the script does with the three (already normalized)
frames, restricted to the pipeline the claims are about.  `displayed`
models the req-check related status messages the page shows: on the halt
path the `st.info` prompt of line 92 (after which `st.stop()` on line 93
aborts the script, so the validation section of lines 305-309 is never
reached); on the success path the validation messages, each rendered by
line 308 under the truthiness guard `if msg:`. -/
structure PipelineResult where
  halted : Bool
  displayed : List String
  scoreDeriverRan : Bool
  filterRan : Bool
  dfOut : Option Table
deriving Repr

/-- One run of the script over the uploaded frames (lines 85-93 gate,
lines 100-139 numeric helpers and score derivation, line 162 filtering,
lines 305-309 validation display). -/
def runPipeline (df_cat df_adop df_contacts : Table) (sel : Selection) : PipelineResult :=
  let cat := catCheck df_cat
  let adp := adpCheck df_adop
  let con := conCheck df_contacts
  let validation_msgs := [cat.2, adp.2, con.2]
  if !cat.1 then
    { halted := true,
      displayed := ["Sube el **Catálogo** para comenzar."],
      scoreDeriverRan := false, filterRan := false, dfOut := none }
  else
    let dfc := deriveScores (addNumericCols df_cat)
    { halted := false,
      displayed := validation_msgs.filter (fun m => !m.isEmpty),
      scoreDeriverRan := true, filterRan := true,
      dfOut := some (apply_filters dfc sel) }

/-- `colScored c T`: every row of `T` carries a score cell for column `c`
that is absent or within [0, 100]. -/
def colScored (c : String) (T : Table) : Prop :=
  ∀ r ∈ T.rows, scoreInRangeB (getCell r c CellValue.nan) = true

/-- A minimal valid catalog frame: every required catalog column, one row
of string cells. -/
def sampleCatalog : Table :=
  Table.mk REQUIRED_CATALOG_COLS
    [REQUIRED_CATALOG_COLS.map (fun c => (c, CellValue.str "v"))]

/-! ## Helper lemmas -/

theorem find?_map_overwrite (r : Row) (c : String) (v : CellValue) :
    (r.map (fun p => if p.1 == c then (c, v) else p)).find? (fun p => p.1 == c) =
      if r.any (fun p => p.1 == c) then some (c, v) else none := by
  induction r with
  | nil => rfl
  | cons p r ih =>
    rw [List.map_cons, List.any_cons]
    by_cases h : (p.1 == c) = true
    · rw [h, if_pos rfl, List.find?_cons_of_pos _ (by simp), Bool.true_or, if_pos rfl]
    · have hb : (p.1 == c) = false := by simpa using h
      rw [hb, if_neg (by simp), List.find?_cons_of_neg _ (by simpa using h),
        Bool.false_or, ih]

theorem find?_map_overwrite_ne (r : Row) (c c' : String) (v : CellValue) (h : c' ≠ c) :
    (r.map (fun p => if p.1 == c then (c, v) else p)).find? (fun p => p.1 == c') =
      r.find? (fun p => p.1 == c') := by
  induction r with
  | nil => rfl
  | cons p r ih =>
    rw [List.map_cons]
    by_cases hp : (p.1 == c) = true
    · have hp2 : (p.1 == c') = false := by
        have : p.1 = c := by simpa using hp
        simp [this, Ne.symm h]
      rw [hp, if_pos rfl, List.find?_cons_of_neg _ (by simp [Ne.symm h]),
        List.find?_cons_of_neg _ (by simp [hp2]), ih]
    · have hb : (p.1 == c) = false := by simpa using hp
      rw [hb, if_neg (by simp)]
      by_cases hq : (p.1 == c') = true
      · rw [List.find?_cons_of_pos (p := fun q : String × CellValue => q.1 == c') _ hq,
          List.find?_cons_of_pos (p := fun q : String × CellValue => q.1 == c') _ hq]
      · rw [List.find?_cons_of_neg (p := fun q : String × CellValue => q.1 == c') _ hq,
          List.find?_cons_of_neg (p := fun q : String × CellValue => q.1 == c') _ hq, ih]

theorem find?_append_single_ne {α : Type} (p : α → Bool) (l : List α) (x : α)
    (hx : p x = false) : (l ++ [x]).find? p = l.find? p := by
  induction l with
  | nil => simp [List.find?, hx]
  | cons a l ih =>
    by_cases h : p a = true
    · rw [List.cons_append, List.find?_cons_of_pos _ h, List.find?_cons_of_pos _ h]
    · rw [List.cons_append, List.find?_cons_of_neg _ h, List.find?_cons_of_neg _ h, ih]

theorem getCell_setRowCell_same (r : Row) (c : String) (v : CellValue) (d : CellValue) :
    getCell (setRowCell r c v) c d = v := by
  unfold setRowCell getCell
  by_cases h : r.any (fun p => p.1 == c) = true
  · rw [if_pos h, find?_map_overwrite, if_pos h]
  · simp only [Bool.not_eq_true] at h
    have hnone : r.find? (fun p => p.1 == c) = none := by
      rw [List.find?_eq_none]
      exact List.any_eq_false.mp h
    rw [if_neg (by simp [h])]
    have : (r ++ [(c, v)]).find? (fun p => p.1 == c) = some (c, v) := by
      induction r with
      | nil => simp [List.find?]
      | cons a t iht =>
        have ha : ((fun p => p.1 == c) a) = false := by
          have := List.any_eq_false.mp h a (by simp)
          simpa using this
        rw [List.cons_append, List.find?_cons_of_neg _ (by simp [ha])]
        exact iht (by
          rw [List.any_eq_false]
          intro x hx
          exact List.any_eq_false.mp h x (by simp [hx])) (by
          rw [List.find?_eq_none]
          intro x hx
          exact List.any_eq_false.mp h x (by simp [hx]))
    rw [this]

theorem getCell_setRowCell_ne (r : Row) (c c' : String) (v : CellValue) (d : CellValue)
    (h : c' ≠ c) : getCell (setRowCell r c v) c' d = getCell r c' d := by
  unfold setRowCell getCell
  by_cases ha : r.any (fun p => p.1 == c) = true
  · rw [if_pos ha, find?_map_overwrite_ne _ _ _ _ h]
  · simp only [Bool.not_eq_true] at ha
    rw [if_neg (by simp [ha]), find?_append_single_ne]
    simp [Ne.symm h]

theorem contains_append_single_ne (l : List String) (c c' : String) (h : c' ≠ c) :
    (l ++ [c]).contains c' = l.contains c' := by
  induction l with
  | nil => simp [List.contains_cons, h]
  | cons a l ih => rw [List.cons_append, List.contains_cons, List.contains_cons, ih]

theorem contains_setCol_ne (df : Table) (c c' : String) (f : Row → CellValue)
    (h : c' ≠ c) : (setCol df c f).cols.contains c' = df.cols.contains c' := by
  unfold setCol
  by_cases hc : df.cols.contains c = true
  · rw [if_pos hc]
  · rw [if_neg hc]
    exact contains_append_single_ne df.cols c c' h

/-- Every value `map_exactitud` produces is absent or in [0, 100]. -/
theorem map_exactitud_range (x : CellValue) : scoreInRangeB (map_exactitud x) = true := by
  unfold map_exactitud
  dsimp only
  split
  · decide
  · split
    · decide
    · split
      · decide
      · decide

/-- Every value `map_cobertura` produces is absent or in [0, 100]. -/
theorem map_cobertura_range (x : CellValue) : scoreInRangeB (map_cobertura x) = true := by
  unfold map_cobertura
  dsimp only
  split
  · decide
  · split
    · decide
    · split
      · decide
      · decide

/-- Every value `map_costo` produces is absent or in [0, 100]. -/
theorem map_costo_range (x : CellValue) : scoreInRangeB (map_costo x) = true := by
  unfold map_costo
  dsimp only
  split
  · decide
  · split
    · decide
    · split
      · decide
      · decide

/-- The unclamped robustness score only takes the values 50, 60, 65, 75. -/
theorem robustezRawScore_cases (row : Row) :
    robustezRawScore row = 50 ∨ robustezRawScore row = 60 ∨
      robustezRawScore row = 65 ∨ robustezRawScore row = 75 := by
  unfold robustezRawScore
  dsimp only
  split <;> split <;> decide

/-- The clamp `max 30 (min 95 score)` is the identity on every reachable
robustness score. -/
theorem map_robustez_eq_raw (row : Row) : map_robustez row = robustezRawScore row := by
  unfold map_robustez
  rcases robustezRawScore_cases row with h | h | h | h <;> rw [h] <;> decide

theorem colScored_setCol_self (T : Table) (c : String) (f : Row → CellValue)
    (hf : ∀ r, scoreInRangeB (f r) = true) : colScored c (setCol T c f) := by
  intro r hr
  rcases List.mem_map.mp hr with ⟨r0, _, rfl⟩
  rw [getCell_setRowCell_same]
  exact hf r0

theorem colScored_setCol_ne (T : Table) (c c' : String) (f : Row → CellValue)
    (h : c ≠ c') (hT : colScored c T) : colScored c (setCol T c' f) := by
  intro r hr
  rcases List.mem_map.mp hr with ⟨r0, hr0, rfl⟩
  rw [getCell_setRowCell_ne _ _ _ _ _ h]
  exact hT r0 hr0

theorem colScored_deriveStep_self (T : Table) (c : String) (f : Row → CellValue)
    (hf : ∀ r, scoreInRangeB (f r) = true) (h : T.cols.contains c = false) :
    colScored c (deriveStep c f T) := by
  unfold deriveStep
  rw [if_neg (by rw [h]; simp)]
  exact colScored_setCol_self T c f hf

theorem colScored_deriveStep (T : Table) (c c' : String) (f : Row → CellValue)
    (h : c ≠ c') (hT : colScored c T) : colScored c (deriveStep c' f T) := by
  unfold deriveStep
  split
  · exact hT
  · exact colScored_setCol_ne T c c' f h hT

theorem contains_deriveStep_ne (T : Table) (c c' : String) (f : Row → CellValue)
    (h : c' ≠ c) : (deriveStep c f T).cols.contains c' = T.cols.contains c' := by
  unfold deriveStep
  split
  · rfl
  · exact contains_setCol_ne T c c' f h

theorem string_eq_empty_of_length_zero (s : String) (h : s.length = 0) : s = "" := by
  cases s with
  | mk d =>
    cases d with
    | nil => rfl
    | cons c t => simp [String.length] at h

theorem isEmpty_append_left (p q : String) (h : p.isEmpty = false) :
    (p ++ q).isEmpty = false := by
  rw [Bool.eq_false_iff] at *
  intro hc
  have h0 := (String.isEmpty_iff _).mp hc
  have hl := congrArg String.length h0
  rw [String.length_append, show ("" : String).length = 0 from rfl] at hl
  have : p.length = 0 := by omega
  exact h ((String.isEmpty_iff p).mpr (string_eq_empty_of_length_zero p this))

theorem req_check_msg_nonempty (df : Table) (cols : List String) (title : String) :
    ((req_check df cols title).2).isEmpty = false := by
  unfold req_check
  dsimp only
  split
  · exact isEmpty_append_left _ _ (isEmpty_append_left _ _ (by decide))
  · split
    · exact isEmpty_append_left _ _ (isEmpty_append_left _ _ (by decide))
    · exact isEmpty_append_left _ _
        (isEmpty_append_left _ _ (isEmpty_append_left _ _ (by decide)))

theorem adpCheck_msg_nonempty (df : Table) : ((adpCheck df).2).isEmpty = false := by
  unfold adpCheck
  split
  · exact req_check_msg_nonempty _ _ _
  · decide

theorem conCheck_msg_nonempty (df : Table) : ((conCheck df).2).isEmpty = false := by
  unfold conCheck
  split
  · exact req_check_msg_nonempty _ _ _
  · decide

theorem catCheck_msg_nonempty (df : Table) : ((catCheck df).2).isEmpty = false := by
  unfold catCheck
  split
  · exact req_check_msg_nonempty _ _ _
  · decide

theorem missing_isEmpty_iff (cols pres : List String) :
    (cols.filter (fun c => !(pres.contains c))).isEmpty = true ↔
      ∀ c ∈ cols, c ∈ pres := by
  rw [List.isEmpty_iff, List.filter_eq_nil_iff]
  constructor
  · intro h c hc
    have := h c hc
    simpa using this
  · intro h c hc
    simp [h c hc]

/-! ## Claims -/

/-- **C1**, counterexample.  A frame with a header row but no data rows is
pandas-empty (`df.empty` is true when any axis has length 0), so
`req_check` returns `isValid = false` even though every required column is
present among its columns — refuting the claimed equivalence between
`isValid = true` and required-column presence at this input. -/
theorem req_check_empty_table_subset_counterexample :
    ¬ (((req_check { cols := ["proveedor"], rows := [] } ["proveedor"] "Catálogo").1 = true) ↔
        (∀ c ∈ (["proveedor"] : List String), c ∈ (["proveedor"] : List String))) := by
  decide

/-- **C1**, amended: for every table that is NOT pandas-empty, `req_check`
returns `isValid = true` iff every column of `cols` is present among the
table's columns; for every pandas-empty table (no rows or no columns) it
returns `false` with the message that table `title` was not provided,
regardless of `cols`. -/
theorem req_check_isValid_iff (df : Table) (cols : List String) (title : String) :
    (tableEmpty df = false →
      ((req_check df cols title).1 = true ↔ ∀ c ∈ cols, c ∈ df.cols)) ∧
    (tableEmpty df = true →
      req_check df cols title = (false, "⚠️ No se cargó **" ++ title ++ "**.")) := by
  constructor
  · intro he
    unfold req_check
    rw [if_neg (by rw [he]; simp)]
    dsimp only
    split
    · next hm =>
      exact iff_of_true rfl ((missing_isEmpty_iff cols df.cols).mp hm)
    · next hm =>
      exact iff_of_false (by simp)
        (fun hall => hm ((missing_isEmpty_iff cols df.cols).mpr hall))
  · intro he
    unfold req_check
    rw [if_pos he]

/-- Witness for `req_check_isValid_iff` at concrete inputs: a one-row
catalog-like frame on the non-empty side, the empty frame on the other. -/
theorem req_check_isValid_iff_witness :
    ((req_check { cols := ["proveedor"], rows := [[("proveedor", CellValue.str "x")]] }
        ["proveedor"] "Catálogo").1 = true ↔
      ∀ c ∈ (["proveedor"] : List String),
        c ∈ ({ cols := ["proveedor"], rows := [[("proveedor", CellValue.str "x")]] } : Table).cols) ∧
    req_check { cols := [], rows := [] } ["proveedor"] "Adopción" =
      (false, "⚠️ No se cargó **" ++ "Adopción" ++ "**.") :=
  ⟨(req_check_isValid_iff { cols := ["proveedor"], rows := [[("proveedor", CellValue.str "x")]] }
      ["proveedor"] "Catálogo").1 rfl,
   (req_check_isValid_iff { cols := [], rows := [] } ["proveedor"] "Adopción").2 rfl⟩

/-- **C3** (code bug).  The numeric helper columns are produced by
`pd.to_numeric(..., errors="coerce")` (lines 100-101), which does NOT
accept a comma as decimal separator: the cell `"1,5"` in
`limite_deteccion_valor` coerces to NaN in `lod_num`.  The comma-tolerant
helper `as_num` (lines 96-98) would parse it as 1.5, but it is never
applied anywhere in the script.  Parse failures yield NaN rather than
raising, in both. -/
theorem lod_num_comma_value_coerces_to_nan :
    ((addNumericCols (Table.mk ["limite_deteccion_valor"]
        [[("limite_deteccion_valor", CellValue.str "1,5")]])).rows.map
      (fun r => getCell r "lod_num" CellValue.nan)) = [CellValue.nan] ∧
    as_num (CellValue.str "1,5") = CellValue.num ⟨3, 2⟩ ∧
    pdToNumeric (CellValue.str "1,5") = CellValue.nan := by
  decide

/-- **C4**, counterexample.  `normalize_cols` assigns `df.columns = [...]`
before `df.rename(...)`, mutating the caller's frame: after the call on a
frame with header `"Proveedor"`, the caller's header set is
`["proveedor"]`, not the original `["Proveedor"]`. -/
theorem normalize_cols_mutates_input_counterexample :
    ¬ ((normalize_cols { cols := ["Proveedor"], rows := [] }).2.cols = ["Proveedor"]) := by
  decide

/-- **C4**, amended: `normalize_cols` returns a table with canonicalized,
alias-resolved headers and unchanged rows, but it is not pure — the
canonicalization step (strip, collapse double spaces, spaces to
underscores, lower-case) is applied to the caller's table in place, and
only the alias renaming is confined to the returned copy; after the call
the input's headers are the canonicalized (pre-alias) names. -/
theorem normalize_cols_returned_and_mutated (df : Table) :
    (normalize_cols df).1 =
      { cols := df.cols.map (fun c => aliasResolve (canonName c)), rows := df.rows } ∧
    (normalize_cols df).2 = { cols := df.cols.map canonName, rows := df.rows } := by
  unfold normalize_cols
  constructor
  · simp [List.map_map, Function.comp]
  · rfl

/-- **C5**, counterexample.  On climate text `"wide outdoor range"` and
operating text `"requires permit"` the robustness score is 75, not the
claimed 65: the climate list matches (`"outdoor"`), but the operating
keywords in the code are Spanish (`"permiso"`, …), which `"requires
permit"` does not contain. -/
theorem map_robustez_english_permit_counterexample :
    ¬ (map_robustez [("condiciones_climaticas", CellValue.str "wide outdoor range"),
        ("condiciones_operativas", CellValue.str "requires permit")] = 65) := by
  decide

/-- **C5**, amended: on climate text `"wide outdoor range"` the +15
climate bonus fires (keyword `"outdoor"`), but the operating keyword list
is Spanish, so operating text `"requires permit"` subtracts nothing and
the score is 75; with the Spanish operating text `"requiere permiso"` the
−10 penalty fires and the score is 65 (= 60 + 15 − 10). -/
theorem map_robustez_wide_outdoor_examples :
    map_robustez [("condiciones_climaticas", CellValue.str "wide outdoor range"),
      ("condiciones_operativas", CellValue.str "requires permit")] = 75 ∧
    map_robustez [("condiciones_climaticas", CellValue.str "wide outdoor range"),
      ("condiciones_operativas", CellValue.str "requiere permiso")] = 65 := by
  decide

/-- **C6**, counterexample.  The code's keyword lists are Spanish: the
input `"very high"` contains none of `"ppb"`, `"±0.0"`, `"muy alta"`,
`"laboratorio"`, `"±"`, `"alta"`, `"media"`, `"screening"`, so
`map_exactitud` returns absent — not the 90 the claim's English keyword
list (`"very high"`) would give. -/
theorem map_exactitud_very_high_counterexample :
    map_exactitud (CellValue.str "very high") = CellValue.nan ∧
    CellValue.nan ≠ CellValue.num 90 := by
  decide

/-- **C6**, amended: `map_exactitud` realizes the tiered keyword rule with
the code's Spanish keyword lists — 90 for any of {ppb, ±0.0, muy alta,
laboratorio}, else 75 for {±, alta}, else 60 for {media, screening}, else
absent — checked on the lower-cased text with earlier tiers taking
priority; the example `"±0.5 ppb, high confidence"` still yields 90 (it
contains `"ppb"`). -/
theorem map_exactitud_matches_tier_spec :
    (∀ x, map_exactitud x = accuracyScoreSpec x) ∧
    map_exactitud (CellValue.str "±0.5 ppb, high confidence") = CellValue.num 90 := by
  refine ⟨fun x => ?_, by decide⟩
  unfold map_exactitud accuracyScoreSpec accuracyTiers
  dsimp only
  cases h1 : (["ppb", "±0.0", "muy alta", "laboratorio"].any fun k => pyIn k (pyLower (pyStr x))) <;>
    cases h2 : (["±", "alta"].any fun k => pyIn k (pyLower (pyStr x))) <;>
      cases h3 : (["media", "screening"].any fun k => pyIn k (pyLower (pyStr x))) <;>
        simp [List.find?, h1, h2, h3]

/-- **C7**, counterexample.  Scores supplied by the source file are never
range-checked or overwritten: a pre-supplied `exactitud_score` of 150
passes through the score-derivation stage untouched, so a score column
can hold a value outside [0, 100] after the stage. -/
theorem supplied_score_out_of_range_counterexample :
    ((deriveScores (Table.mk ["exactitud_score"]
        [[("exactitud_score", CellValue.num 150)]])).rows.map
      (fun r => getCell r "exactitud_score" CellValue.nan)) = [CellValue.num 150] ∧
    scoreInRangeB (CellValue.num 150) = false := by
  decide

/-- **C7**, amended: after the score-derivation stage, each of the four
score columns that was NOT supplied in the source frame (and hence was
derived) holds, in every row, either an absent value or a number within
[0, 100]; supplied score columns pass through unmodified and are not
range-checked. -/
theorem derived_scores_in_range (df : Table) (r : Row)
    (hr : r ∈ (deriveScores df).rows) :
    (df.cols.contains "exactitud_score" = false →
      scoreInRangeB (getCell r "exactitud_score" CellValue.nan) = true) ∧
    (df.cols.contains "cobertura_score" = false →
      scoreInRangeB (getCell r "cobertura_score" CellValue.nan) = true) ∧
    (df.cols.contains "costo_score" = false →
      scoreInRangeB (getCell r "costo_score" CellValue.nan) = true) ∧
    (df.cols.contains "robustez_score" = false →
      scoreInRangeB (getCell r "robustez_score" CellValue.nan) = true) := by
  have hex : df.cols.contains "exactitud_score" = false →
      colScored "exactitud_score" (deriveScores df) := by
    intro h
    unfold deriveScores
    refine colScored_deriveStep _ _ _ _ (by decide)
      (colScored_deriveStep _ _ _ _ (by decide)
        (colScored_deriveStep _ _ _ _ (by decide) ?_))
    exact colScored_deriveStep_self _ _ _ (fun r => map_exactitud_range _) h
  have hcob : df.cols.contains "cobertura_score" = false →
      colScored "cobertura_score" (deriveScores df) := by
    intro h
    unfold deriveScores
    refine colScored_deriveStep _ _ _ _ (by decide)
      (colScored_deriveStep _ _ _ _ (by decide) ?_)
    refine colScored_deriveStep_self _ _ _ (fun r => map_cobertura_range _) ?_
    rw [contains_deriveStep_ne _ _ _ _ (by decide)]
    exact h
  have hcos : df.cols.contains "costo_score" = false →
      colScored "costo_score" (deriveScores df) := by
    intro h
    unfold deriveScores
    refine colScored_deriveStep _ _ _ _ (by decide) ?_
    refine colScored_deriveStep_self _ _ _ (fun r => map_costo_range _) ?_
    rw [contains_deriveStep_ne _ _ _ _ (by decide),
      contains_deriveStep_ne _ _ _ _ (by decide)]
    exact h
  have hrob : df.cols.contains "robustez_score" = false →
      colScored "robustez_score" (deriveScores df) := by
    intro h
    unfold deriveScores
    refine colScored_deriveStep_self _ _ _ (fun r => ?_) ?_
    · rcases robustezRawScore_cases r with hv | hv | hv | hv <;>
        rw [map_robustez_eq_raw, hv] <;> decide
    · rw [contains_deriveStep_ne _ _ _ _ (by decide),
        contains_deriveStep_ne _ _ _ _ (by decide),
        contains_deriveStep_ne _ _ _ _ (by decide)]
      exact h
  exact ⟨fun h => hex h r hr, fun h => hcob h r hr,
    fun h => hcos h r hr, fun h => hrob h r hr⟩

/-- Witness for `derived_scores_in_range`: a one-row catalog fragment with
none of the score columns supplied; the derived row carries scores 75
(accuracy, from `"alta"`), absent (coverage, cost) and 60 (robustness),
all in range. -/
theorem derived_scores_in_range_witness :
    (scoreInRangeB (getCell [("exactitud_incertidumbre", CellValue.str "alta"),
        ("exactitud_score", CellValue.num 75), ("cobertura_score", CellValue.nan),
        ("costo_score", CellValue.nan), ("robustez_score", CellValue.num 60)]
      "exactitud_score" CellValue.nan) = true) ∧
    (scoreInRangeB (getCell [("exactitud_incertidumbre", CellValue.str "alta"),
        ("exactitud_score", CellValue.num 75), ("cobertura_score", CellValue.nan),
        ("costo_score", CellValue.nan), ("robustez_score", CellValue.num 60)]
      "robustez_score" CellValue.nan) = true) :=
  have h := derived_scores_in_range
    (Table.mk ["exactitud_incertidumbre"]
      [[("exactitud_incertidumbre", CellValue.str "alta")]])
    [("exactitud_incertidumbre", CellValue.str "alta"),
     ("exactitud_score", CellValue.num 75), ("cobertura_score", CellValue.nan),
     ("costo_score", CellValue.nan), ("robustez_score", CellValue.num 60)]
    (by decide)
  ⟨h.1 (by decide), h.2.2.2 (by decide)⟩

/-- **C8**, counterexample.  The TRL clause of the filter applies even in
the identity configuration: a catalog row whose `trl_num` is 15 (outside
the widget range [0, 9]) is dropped by `apply_filters` although all
category selections are empty, the TRL range is [0, 9] and the query is
empty — so the result is not equal to the input. -/
theorem apply_filters_identity_counterexample :
    ¬ (apply_filters (Table.mk ["trl_num"] [[("trl_num", CellValue.num 15)]])
        identitySelection = Table.mk ["trl_num"] [[("trl_num", CellValue.num 15)]]) := by
  decide

/-- **C8**, amended: with all category selections empty, TRL range [0, 9]
and empty query, `apply_filters` returns a table equal to the input
PROVIDED every row's `trl_num` value (absent treated as 0) lies within
[0, 9] — which holds for every catalog whose TRL data is in the
documented 0-9 range; rows with `trl_num` outside [0, 9] are dropped even
by this all-empty filter. -/
theorem apply_filters_identity_of_trl_in_range (df : Table)
    (h : ∀ r ∈ df.rows, Q.le 0 (fillna0 (getCell r "trl_num" CellValue.nan)) ∧
      Q.le (fillna0 (getCell r "trl_num" CellValue.nan)) 9) :
    apply_filters df identitySelection = df := by
  unfold apply_filters
  have hall : df.rows.filter (rowKept df identitySelection) = df.rows := by
    rw [List.filter_eq_self]
    intro r hr
    unfold rowKept identitySelection
    rcases h r hr with ⟨h0, h9⟩
    simp only [List.isEmpty_nil, if_true, Bool.true_and, String.isEmpty_iff]
    split
    · simp only [Q.ofInt, Bool.and_eq_true, decide_eq_true_eq]
      exact ⟨⟨h0, h9⟩, trivial⟩
    · rfl
  rw [hall]

/-- Witness for `apply_filters_identity_of_trl_in_range`: a one-row table
with `trl_num` 5 passes the identity filter unchanged. -/
theorem apply_filters_identity_witness :
    apply_filters (Table.mk ["trl_num"] [[("trl_num", CellValue.num 5)]])
      identitySelection = Table.mk ["trl_num"] [[("trl_num", CellValue.num 5)]] :=
  apply_filters_identity_of_trl_in_range
    (Table.mk ["trl_num"] [[("trl_num", CellValue.num 5)]]) (by decide)

/-- **C9** (confirmed): for every row, `map_robustez` returns one of
50, 60, 65, 75 (60 base, ±keyword adjustments), and the clamp
`max(30, min(95, score))` is the identity on every reachable score —
`map_robustez` always equals the unclamped `robustezRawScore`. -/
theorem map_robustez_reachable_values (row : Row) :
    (map_robustez row = 50 ∨ map_robustez row = 60 ∨
      map_robustez row = 65 ∨ map_robustez row = 75) ∧
    map_robustez row = robustezRawScore row := by
  refine ⟨?_, map_robustez_eq_raw row⟩
  rw [map_robustez_eq_raw]
  exact robustezRawScore_cases row

/-- **C10** (confirmed): whenever the query is non-empty, every row kept
by `apply_filters` satisfies the free-text test — the lower-cased query is
a substring of the row's cell values stringified and joined with single
spaces (the joined text lower-cased) — and, concretely, the query
`"sensor acme"` (which spans a space) keeps a row whose joined cells
`"Methane Sensor Acme Corp"` contain it across the boundary between two
adjacent cells, although no single cell of the row contains it. -/
theorem query_filter_joined_substring :
    (∀ (df : Table) (sel : Selection) (r : Row), r ∈ (apply_filters df sel).rows →
      sel.query.isEmpty = false →
      pyIn (pyLower sel.query)
        (pyLower (String.intercalate " "
          ((df.cols.map (fun c => getCell r c CellValue.nan)).map pyStr))) = true) ∧
    (apply_filters
        (Table.mk ["proveedor", "producto_modelo"]
          [[("proveedor", CellValue.str "Methane Sensor"),
            ("producto_modelo", CellValue.str "Acme Corp")],
           [("proveedor", CellValue.str "Other"),
            ("producto_modelo", CellValue.str "Vendor")]])
        (Selection.mk [] [] [] [] 0 9 "sensor acme")).rows =
      [[("proveedor", CellValue.str "Methane Sensor"),
        ("producto_modelo", CellValue.str "Acme Corp")]] ∧
    (["Methane Sensor", "Acme Corp"] : List String).all
      (fun cell => !(pyIn (pyLower "sensor acme") (pyLower cell))) = true := by
  refine ⟨?_, by decide, by decide⟩
  intro df sel r hr hq
  have hk := (List.mem_filter.mp hr).2
  unfold rowKept at hk
  simp only [Bool.and_eq_true] at hk
  have h6 := hk.2
  rw [if_neg (by rw [hq]; simp)] at h6
  unfold rowMatchesQuery at h6
  exact h6

/-- Witness for the universal part of `query_filter_joined_substring`,
instantiated at the concrete one-row table and query of the example. -/
theorem query_filter_joined_substring_witness :
    pyIn (pyLower "sensor acme")
      (pyLower (String.intercalate " "
        (((Table.mk ["proveedor", "producto_modelo"]
            [[("proveedor", CellValue.str "Methane Sensor"),
              ("producto_modelo", CellValue.str "Acme Corp")]]).cols.map
          (fun c => getCell [("proveedor", CellValue.str "Methane Sensor"),
            ("producto_modelo", CellValue.str "Acme Corp")] c CellValue.nan)).map pyStr))) =
      true :=
  query_filter_joined_substring.1
    (Table.mk ["proveedor", "producto_modelo"]
      [[("proveedor", CellValue.str "Methane Sensor"),
        ("producto_modelo", CellValue.str "Acme Corp")]])
    (Selection.mk [] [] [] [] 0 9 "sensor acme")
    [("proveedor", CellValue.str "Methane Sensor"),
     ("producto_modelo", CellValue.str "Acme Corp")]
    (by decide) rfl

/-- **C2**, counterexample.  When the catalog fails validation the script
halts at `st.stop()` (line 93) right after the `st.info` prompt of line
92; the validation-message section (lines 305-309) is below the stop and
never runs, so the halt path does NOT surface the validation messages —
only the upload prompt.  Here: all three frames empty, and the catalog
message `"⚠️ No se cargó **Catálogo**."` is not among what is displayed. -/
theorem pipeline_halt_message_counterexample :
    (runPipeline (Table.mk [] []) (Table.mk [] []) (Table.mk [] [])
        identitySelection).halted = true ∧
    ¬ ((catCheck (Table.mk [] [])).2 ∈
        (runPipeline (Table.mk [] []) (Table.mk [] []) (Table.mk [] [])
          identitySelection).displayed) := by
  decide

/-- **C2**, amended: whenever catalog validation fails, the pipeline halts
before the Score Deriver and the Filter Engine run, surfacing only the
prompt to upload the catalog (the per-table validation messages are
rendered below the stop and only appear on runs where the catalog
validates); failed validation of the adoption or contacts tables never
halts processing — on a validating catalog the pipeline completes and
their messages are reported. -/
theorem pipeline_catalog_gate (dc da dk : Table) (sel : Selection) :
    ((catCheck dc).1 = false →
      (runPipeline dc da dk sel).halted = true ∧
      (runPipeline dc da dk sel).scoreDeriverRan = false ∧
      (runPipeline dc da dk sel).filterRan = false ∧
      (runPipeline dc da dk sel).displayed = ["Sube el **Catálogo** para comenzar."]) ∧
    ((catCheck dc).1 = true →
      (runPipeline dc da dk sel).halted = false ∧
      (runPipeline dc da dk sel).scoreDeriverRan = true ∧
      (runPipeline dc da dk sel).filterRan = true ∧
      (adpCheck da).2 ∈ (runPipeline dc da dk sel).displayed ∧
      (conCheck dk).2 ∈ (runPipeline dc da dk sel).displayed) := by
  constructor
  · intro h
    unfold runPipeline
    rw [if_pos (by rw [h]; rfl)]
    exact ⟨rfl, rfl, rfl, rfl⟩
  · intro h
    unfold runPipeline
    rw [if_neg (by rw [h]; simp)]
    refine ⟨rfl, rfl, rfl, ?_, ?_⟩
    · refine List.mem_filter.mpr ⟨by simp, ?_⟩
      simp only [adpCheck_msg_nonempty]
      rfl
    · refine List.mem_filter.mpr ⟨by simp, ?_⟩
      simp only [conCheck_msg_nonempty]
      rfl

/-- Witness for `pipeline_catalog_gate`: a minimal valid catalog with
empty adoption and contacts frames runs to completion, reporting the two
"not loaded" messages without halting. -/
theorem pipeline_catalog_gate_witness :
    (runPipeline sampleCatalog (Table.mk [] []) (Table.mk [] [])
        identitySelection).halted = false ∧
    (runPipeline sampleCatalog (Table.mk [] []) (Table.mk [] [])
        identitySelection).scoreDeriverRan = true ∧
    (runPipeline sampleCatalog (Table.mk [] []) (Table.mk [] [])
        identitySelection).filterRan = true ∧
    (adpCheck (Table.mk [] [])).2 ∈
      (runPipeline sampleCatalog (Table.mk [] []) (Table.mk [] [])
        identitySelection).displayed ∧
    (conCheck (Table.mk [] [])).2 ∈
      (runPipeline sampleCatalog (Table.mk [] []) (Table.mk [] [])
        identitySelection).displayed :=
  (pipeline_catalog_gate sampleCatalog (Table.mk [] []) (Table.mk [] [])
    identitySelection).2 (by decide)

end RadarTech
